import Mathlib

/-!
Verification model of the WeWork desk-booking automation repository.

JavaScript strings are modelled as lists of characters (`JsString`), thrown
JavaScript errors as `Except` values carrying the error message, and the
external browser/HTTP capabilities as explicit environment records whose
fields give the outcome of each external interaction.  Every definition is
translated from the TypeScript sources (src/booking.ts, src/slack.ts,
src/auth.ts, src/index.ts, src/config.ts, src/utils.ts).
-/

namespace WeWork

/-- A JavaScript string, modelled as its character sequence. -/
abbrev JsString := List Char

/-- A thrown JavaScript error, identified by its message. -/
abbrev JsError := String

/-! ## utils.ts -/

/-- `takeScreenshot` from utils.ts: when screenshots are enabled it saves one
image under the given label; when disabled it does nothing.  We model the
filesystem effect as the list of labels written (the internal try/catch of
the source means the helper itself never throws). -/
def takeScreenshot (enabled : Bool) (label : String) : List String :=
  if enabled then [label] else []

/-! ## The availability regex  `/(\d+)\s+desk/i`  from booking.ts -/

/-- JavaScript regex class `\d`: the decimal digits. -/
def jsIsDigit (c : Char) : Bool :=
  '0' ≤ c && c ≤ '9'

/-- JavaScript regex class `\s` (the whitespace characters; the common ones
suffice for this model). -/
def jsIsSpace (c : Char) : Bool :=
  c = ' ' || c = '\t' || c = '\n' || c = '\r' || c.toNat = 11 || c.toNat = 12 || c.toNat = 160

/-- `parseInt(ds, 10)` on a string of decimal digits (JS numbers are modelled
as exact integers). -/
def digitsToNat (ds : JsString) : Nat :=
  ds.foldl (fun a c => 10 * a + (c.toNat - 48)) 0

/-- The decimal rendering of a natural number, most significant digit first
(the digit sequence a JS number prints as). -/
def natDigits (n : Nat) : JsString :=
  if h : n < 10 then [Char.ofNat (48 + n)]
  else natDigits (n / 10) ++ [Char.ofNat (48 + n % 10)]
termination_by n
decreasing_by
  exact Nat.div_lt_self (by omega) (by omega)

/-- Attempt of the regex `(\d+)\s+desk` (case-insensitive) at the very start
of the text: a nonempty maximal digit run, then a nonempty whitespace run,
then the literal `desk` up to case.  (For this pattern the greedy runs with
backtracking coincide with the maximal runs, because a digit is never
whitespace and `d` is neither.) -/
def desksMatchAt (cs : JsString) : Option Nat :=
  let ds := cs.takeWhile jsIsDigit
  if ds.isEmpty then none
  else
    let rest := cs.drop ds.length
    let ws := rest.takeWhile jsIsSpace
    if ws.isEmpty then none
    else
      let rest2 := rest.drop ws.length
      if (rest2.take 4).map Char.toLower = ['d', 'e', 's', 'k'] then
        some (digitsToNat ds)
      else none

/-- `text.match(/(\d+)\s+desk/i)`: scan the start positions left to right and
return the first captured desk count, as booking.ts does at line 228. -/
def desksMatch : JsString → Option Nat
  | [] => none
  | c :: cs =>
    match desksMatchAt (c :: cs) with
    | some n => some n
    | none => desksMatch cs

/-- JavaScript `String.prototype.includes`: `sub` occurs somewhere in `s`. -/
def jsIncludes (s sub : JsString) : Bool :=
  (List.range (s.length + 1)).any fun i => sub.isPrefixOf (s.drop i)

/-! ## booking.ts : checkIfDesksAvailable / checkAvailability -/

/-- The location substring hard-coded in booking.ts (`'10 York Rd'`). -/
def yorkRd : JsString := "10 York Rd".toList

/-- One element matching the `.card-title` selector, as seen by
`checkIfDesksAvailable`: its `textContent` (null possible) and the
`textContent` of the `.text-primary div[translate]` node inside its closest
`.d-flex.flex-column` container (`none` when the container or the node is
missing or its `textContent` is null). -/
structure Card where
  text : Option JsString
  availabilityText : Option JsString
deriving DecidableEq

/-- The result record of `checkIfDesksAvailable`. -/
structure DeskAvailability where
  isAvailable : Bool
  desksCount : Option Nat
deriving DecidableEq

/-- One iteration of the card loop in `checkIfDesksAvailable`: if the card's
text is non-null and contains `10 York Rd`, look up the availability text;
if that text is truthy (non-null, nonempty) and the regex matches, produce
the parsed count.  Otherwise the loop moves on. -/
def cardHit (card : Card) : Option Nat :=
  match card.text with
  | none => none
  | some t =>
    if jsIncludes t yorkRd then
      match card.availabilityText with
      | none => none
      | some a => if a.isEmpty then none else desksMatch a
    else none

/-- The `for (const card of locationCards)` loop: first hit wins. -/
def checkCards : List Card → Option Nat
  | [] => none
  | c :: cs =>
    match cardHit c with
    | some n => some n
    | none => checkCards cs

/-- `checkIfDesksAvailable` (booking.ts lines 195–249): on a regex hit it
returns `{isAvailable: desksCount > 0, desksCount}`; otherwise it takes the
`desk-availability-check` screenshot and returns `{isAvailable: false}` with
`desksCount` unset.  The second component records the screenshots taken. -/
def checkIfDesksAvailable (enabled : Bool) (cards : List Card) :
    DeskAvailability × List String :=
  match checkCards cards with
  | some n => (⟨decide (0 < n), some n⟩, [])
  | none => (⟨false, none⟩, takeScreenshot enabled "desk-availability-check")

/-- The per-date result record returned by `checkAvailability`.  Dates are
modelled as day numbers since the epoch. -/
structure AvailabilityResult where
  date : Nat
  isAvailable : Bool
  desksCount : Option Nat
deriving DecidableEq

/-- The page state `checkAvailability` runs against: the outcome of the
`selectDate` interaction and the cards present afterwards. -/
structure BookingEnv where
  selectDateResult : Except JsError Unit
  cards : List Card
  enableScreenshots : Bool

/-- `checkAvailability` (booking.ts lines 94–125): select the date (any
exception is rethrown after the diagnostic screenshot), then read the desk
availability from the cards and return the `AvailabilityResult`; when desks
are available one extra screenshot is taken. -/
def checkAvailability (env : BookingEnv) (date : Nat) :
    Except JsError AvailabilityResult × List String :=
  match env.selectDateResult with
  | Except.error e =>
    (Except.error e, takeScreenshot env.enableScreenshots "availability-error")
  | Except.ok _ =>
    let (r, shots) := checkIfDesksAvailable env.enableScreenshots env.cards
    let shots2 :=
      if r.isAvailable then shots ++ takeScreenshot env.enableScreenshots "available-desks"
      else shots
    (Except.ok ⟨date, r.isAvailable, r.desksCount⟩, shots2)

/-! ## config.ts -/

/-- The configuration record (config.ts), restricted to the fields the
verified operations read.  URLs are fixed constants in the source and are
declared separately below. -/
structure Config where
  email : JsString
  password : JsString
  location : JsString
  logoutAfterCompletion : Bool
  enableScreenshots : Bool
  slackWebhookUrl : JsString

/-- The fixed login URL from config.ts. -/
def loginUrl : JsString :=
  "https://members.wework.com/workplaceone/content2/login/welcome".toList

/-- `validateConfig` (config.ts): throws when the credential pair or the
location is a falsy (empty) string. -/
def validateConfig (cfg : Config) : Except JsError Unit :=
  if cfg.email.isEmpty || cfg.password.isEmpty then
    Except.error "WEWORK_EMAIL and WEWORK_PASSWORD must be set in .env file"
  else if cfg.location.isEmpty then
    Except.error "LOCATION_NAME must be set in .env file"
  else Except.ok ()

/-! ## slack.ts : sendCombinedSlackNotification -/

/-- An HTTP response as observed through axios. -/
structure HttpResponse where
  status : Nat
deriving DecidableEq

/-- The JSON payload posted to the webhook (its top-level `text` field). -/
structure SlackPayload where
  text : JsString
deriving DecidableEq

/-- The external capabilities slack.ts uses: date rendering
(`formatDateToString`/`formatDate`, an Intl capability) and the outbound
HTTP POST, which may return any status or throw a transport error. -/
structure SlackDeps where
  formatDate : Nat → JsString
  post : SlackPayload → Except JsError HttpResponse

/-- The observable outcome of a notification call: the payloads actually
posted and the console log lines. -/
structure SlackOutcome where
  posts : List SlackPayload
  logs : List String

/-- One per-date section line of the combined message (slack.ts lines
38–59). -/
def resultLine (deps : SlackDeps) (r : AvailabilityResult) : JsString :=
  let formattedDate := deps.formatDate r.date
  let emoji := if r.isAvailable then "✅".toList else "❌".toList
  let statusText :=
    if r.isAvailable then
      match r.desksCount with
      | some c => "*".toList ++ natDigits c ++ " desks available*".toList
      | none => "*Desks are available*".toList
    else "*No desks available*".toList
  emoji ++ " ".toList ++ formattedDate ++ ": ".toList ++ statusText

/-- The combined message text (slack.ts lines 59–67). -/
def buildSlackText (cfg : Config) (deps : SlackDeps)
    (results : List AvailabilityResult) : JsString :=
  let sections := List.intercalate ('\n' :: []) (results.map (resultLine deps))
  let bookingLink := "\n\n<".toList ++ loginUrl ++ "|*Click here to book a desk*>".toList
  "*WeWork Desk Availability for ".toList ++ cfg.location ++ "*\n\n".toList
    ++ sections ++ bookingLink

/-- `sendCombinedSlackNotification` (slack.ts lines 20–81).  The guards skip
the call when the webhook URL is falsy or the result list is empty.  The
body posts once; a non-200 status is only logged, and the catch-all turns
any transport error into a log line, so the `Except.error` constructor of
the return type is never produced. -/
def sendCombinedSlackNotification (cfg : Config) (deps : SlackDeps)
    (results : List AvailabilityResult) : Except JsError SlackOutcome :=
  if cfg.slackWebhookUrl.isEmpty then
    Except.ok ⟨[], ["Slack webhook URL not configured, skipping notification"]⟩
  else if results.isEmpty then
    Except.ok ⟨[], ["No availability results to send, skipping notification"]⟩
  else
    let payload : SlackPayload := ⟨buildSlackText cfg deps results⟩
    match deps.post payload with
    | Except.ok resp =>
      if resp.status = 200 then
        Except.ok ⟨[payload],
          ["Sending combined desk availability notification to Slack...",
           "Successfully sent combined notification to Slack"]⟩
      else
        Except.ok ⟨[payload],
          ["Sending combined desk availability notification to Slack...",
           "Warning: Slack notification returned non-200 status"]⟩
    | Except.error _ =>
      Except.ok ⟨[payload],
        ["Sending combined desk availability notification to Slack...",
         "Error sending combined Slack notification"]⟩

/-! ## auth.ts : login / isLoggedIn -/

/-- The page behaviour observed by `login`: the outcome of the navigation,
the number of elements each selector matches, and the outcome of clicking
or typing into the first match. -/
structure LoginEnv where
  gotoResult : Except JsError Unit
  memberBtnCount : Nat
  memberBtnClick : Except JsError Unit
  emailCount : Nat
  emailType : Except JsError Unit
  passwordCount : Nat
  passwordType : Except JsError Unit
  submitCount : Nat
  submitClick : Except JsError Unit
  enableScreenshots : Bool

/-- `clickElement` (auth.ts lines 70–91): false when the selector matches
nothing (no screenshot), false with an error screenshot when the click
throws, true otherwise. -/
def clickElement (count : Nat) (clickRes : Except JsError Unit)
    (enabled : Bool) (label : String) : Bool × List String :=
  if 0 < count then
    match clickRes with
    | Except.ok _ => (true, [])
    | Except.error _ => (false, takeScreenshot enabled ("error-clicking-" ++ label))
  else (false, [])

/-- `fillInput` (auth.ts lines 101–118), same shape as `clickElement`. -/
def fillInput (count : Nat) (typeRes : Except JsError Unit)
    (enabled : Bool) (label : String) : Bool × List String :=
  if 0 < count then
    match typeRes with
    | Except.ok _ => (true, [])
    | Except.error _ => (false, takeScreenshot enabled ("error-filling-" ++ label))
  else (false, [])

/-- The try-block of `login` (auth.ts lines 12–55): navigate, click the
member-login control, fill email and password, click the submit control;
each missing control throws the source's error message. -/
def loginBody (env : LoginEnv) : Except JsError Unit × List String :=
  match env.gotoResult with
  | Except.error e => (Except.error e, [])
  | Except.ok _ =>
    let (c1, s1) := clickElement env.memberBtnCount env.memberBtnClick
      env.enableScreenshots "member-log-in-button"
    if c1 = false then (Except.error "Could not find member log in button", s1)
    else
      let (f1, s2) := fillInput env.emailCount env.emailType
        env.enableScreenshots "email-field"
      if f1 = false then (Except.error "Could not find email input field", s1 ++ s2)
      else
        let (f2, s3) := fillInput env.passwordCount env.passwordType
          env.enableScreenshots "password-field"
        if f2 = false then
          (Except.error "Could not find password input field", s1 ++ s2 ++ s3)
        else
          let (c2, s4) := clickElement env.submitCount env.submitClick
            env.enableScreenshots "login-button"
          if c2 = false then
            (Except.error "Could not find login button", s1 ++ s2 ++ s3 ++ s4)
          else (Except.ok (), s1 ++ s2 ++ s3 ++ s4)

/-- `login` (auth.ts lines 9–61): the catch takes the `login-error`
screenshot and rethrows. -/
def login (env : LoginEnv) : Except JsError Unit × List String :=
  match loginBody env with
  | (Except.ok _, shots) => (Except.ok (), shots)
  | (Except.error e, shots) =>
    (Except.error e, shots ++ takeScreenshot env.enableScreenshots "login-error")

/-- The page behaviour observed by `isLoggedIn`: the `.user-menu` query
(which may throw) and the current URL. -/
structure LoggedInEnv where
  userMenuQuery : Except JsError Nat
  url : JsString
  enableScreenshots : Bool

/-- The try-block of `isLoggedIn` (auth.ts lines 126–150). -/
def isLoggedInBody (env : LoggedInEnv) : Except JsError (Bool × List String) :=
  match env.userMenuQuery with
  | Except.error e => Except.error e
  | Except.ok n =>
    if 0 < n then Except.ok (true, [])
    else if jsIncludes env.url "/dashboard".toList
        || jsIncludes env.url "/account".toList
        || jsIncludes env.url "/profile".toList
        || jsIncludes env.url "/workspace".toList then
      Except.ok (true, [])
    else Except.ok (false, takeScreenshot env.enableScreenshots "login-verification-failed")

/-- `isLoggedIn` (auth.ts lines 125–156): the catch returns `false` after a
diagnostic screenshot, so the operation always produces a boolean. -/
def isLoggedIn (env : LoggedInEnv) : Bool × List String :=
  match isLoggedInBody env with
  | Except.ok (b, shots) => (b, shots)
  | Except.error _ => (false, takeScreenshot env.enableScreenshots "login-status-error")

/-! ## index.ts : getNextTuesdayAndThursday and main -/

/-- `Date.prototype.getDay` on an epoch-day number: day 0 (1970-01-01) was a
Thursday, so the JS weekday (0 = Sunday) is `(d + 4) % 7`. -/
def jsGetDay (d : Nat) : Nat := (d + 4) % 7

/-- `getNextTuesdayAndThursday` (index.ts lines 28–50), on "today" given as
an epoch-day number.  `setDate` with an incremented day-of-month is plain
day addition. -/
def getNextTuesdayAndThursday (today : Nat) : List Nat :=
  let day := jsGetDay today
  let daysUntilTuesday := ((2 - (day : Int) + 7) % 7).toNat
  let nextTuesday := today + (if daysUntilTuesday = 0 then 7 else daysUntilTuesday)
  let daysUntilThursday := ((4 - (day : Int) + 7) % 7).toNat
  let nextThursday := today + (if daysUntilThursday = 0 then 7 else daysUntilThursday)
  [nextTuesday, nextThursday]

/-- The run environment of `main` (index.ts lines 53–123): the configuration
and the outcome of every external step, in program order. -/
structure MainEnv where
  cfg : Config
  today : Nat
  launch : Except JsError Unit
  setViewport : Except JsError Unit
  loginResult : Except JsError Unit
  loggedIn : Bool
  navigate : Except JsError Unit
  check : Nat → Except JsError AvailabilityResult
  slackDeps : SlackDeps
  logoutResult : Except JsError Unit
  closeResult : Except JsError Unit

/-- The observable outcome of one run of `main`: the process exit status,
whether a browser session was created, the screenshots taken by `main`
itself, and the notification payloads posted. -/
structure RunOutcome where
  exitCode : Nat
  browserLaunched : Bool
  screenshots : List String
  slackPosts : List SlackPayload
deriving DecidableEq

/-- The `for (const date of nextDates)` loop of `main`: sequential checks,
the first rejected check aborting the loop. -/
def runChecks (env : MainEnv) : List Nat → Except JsError (List AvailabilityResult)
  | [] => Except.ok []
  | d :: ds =>
    match env.check d with
    | Except.error e => Except.error e
    | Except.ok r =>
      match runChecks env ds with
      | Except.error e => Except.error e
      | Except.ok rs => Except.ok (r :: rs)

/-- The inner try-block of `main` (index.ts lines 63–112), returning the
first uncaught exception (if any) and the notification payloads posted. -/
def innerBody (env : MainEnv) : Option JsError × List SlackPayload :=
  match env.setViewport with
  | Except.error e => (some e, [])
  | Except.ok _ =>
    match env.loginResult with
    | Except.error e => (some e, [])
    | Except.ok _ =>
      if env.loggedIn = false then
        (some "Login failed. Could not verify logged in status.", [])
      else
        match env.navigate with
        | Except.error e => (some e, [])
        | Except.ok _ =>
          match runChecks env (getNextTuesdayAndThursday env.today) with
          | Except.error e => (some e, [])
          | Except.ok results =>
            match sendCombinedSlackNotification env.cfg env.slackDeps results with
            | Except.error e => (some e, [])
            | Except.ok o =>
              if env.cfg.logoutAfterCompletion then
                match env.logoutResult with
                | Except.error e => (some e, o.posts)
                | Except.ok _ => (none, o.posts)
              else (none, o.posts)

/-- `main` (index.ts lines 53–123) together with the process-level
`main().catch(...)` handler: validation failures and errors escaping the
inner catch/finally exit with status 1; the inner catch logs, screenshots
(`error`) and does not rethrow, after which the browser is closed and the
process ends with status 0. -/
def main (env : MainEnv) : RunOutcome :=
  match validateConfig env.cfg with
  | Except.error _ => ⟨1, false, [], []⟩
  | Except.ok _ =>
    match env.launch with
    | Except.error _ => ⟨1, true, [], []⟩
    | Except.ok _ =>
      let (errOpt, posts) := innerBody env
      let shots :=
        match errOpt with
        | some _ => takeScreenshot env.cfg.enableScreenshots "error"
        | none => []
      match env.closeResult with
      | Except.error _ => ⟨1, true, shots, posts⟩
      | Except.ok _ => ⟨0, true, shots, posts⟩

/-! ## Concrete environments used to evaluate the model -/

/-- A card whose text matches the location and whose availability text shows
three desks. -/
def card3 : Card := ⟨some yorkRd, some "3 desks available".toList⟩

/-- A card list in which no card yields an availability hit. -/
def noHitCards : List Card :=
  [⟨some "somewhere else".toList, some "5 desks available".toList⟩,
   ⟨some yorkRd, none⟩,
   ⟨none, some "2 desks available".toList⟩,
   ⟨some yorkRd, some "no desks here".toList⟩]

/-- Trivial external slack capabilities: constant date rendering, a POST that
always answers 200. -/
def slackDeps0 : SlackDeps := ⟨fun _ => [], fun _ => Except.ok ⟨200⟩⟩

/-- A valid configuration with the webhook unset. -/
def cfgValid : Config := ⟨"a@b.c".toList, "pw".toList, yorkRd, true, true, []⟩

/-- A configuration whose password is empty. -/
def cfgNoPassword : Config := ⟨"a@b.c".toList, [], yorkRd, true, true, []⟩

/-- A run environment in which every step succeeds except the login, which
rejects with a timeout error. -/
def envLoginFails : MainEnv :=
  ⟨cfgValid, 0, Except.ok (), Except.ok (), Except.error "TimeoutError: login",
   true, Except.ok (), fun d => Except.ok ⟨d, false, none⟩, slackDeps0,
   Except.ok (), Except.ok ()⟩

/-- The same run environment but with the invalid (empty-password)
configuration. -/
def envBadConfig : MainEnv := { envLoginFails with cfg := cfgNoPassword }

/-- A login page state in which every step succeeds but the submit control
selector matches zero elements. -/
def loginEnvNoSubmit : LoginEnv :=
  ⟨Except.ok (), 1, Except.ok (), 1, Except.ok (), 1, Except.ok (), 0,
   Except.ok (), true⟩

/-- A page state in which the `.user-menu` query throws. -/
def loggedInEnvErr : LoggedInEnv :=
  ⟨Except.error "Execution context was destroyed", "https://members.wework.com/x".toList, true⟩

/-- A booking page state showing the three-desk card. -/
def bookingEnv3 : BookingEnv := ⟨Except.ok (), [card3], true⟩

/-- The hypothesis of the orchestrator claim: an exception is raised during
login, during navigation, or during one of the sequential per-date
availability checks (i.e. before the Reporting step). -/
def failsBeforeReporting (env : MainEnv) : Prop :=
  (∃ e, env.loginResult = Except.error e) ∨
  (env.loginResult = Except.ok () ∧ env.loggedIn = true ∧
    ∃ e, env.navigate = Except.error e) ∨
  (env.loginResult = Except.ok () ∧ env.loggedIn = true ∧
    env.navigate = Except.ok () ∧
    ∃ e, runChecks env (getNextTuesdayAndThursday env.today) = Except.error e)

/-! ## Decimal digit lemmas -/

theorem natDigits_ne_nil (n : Nat) : natDigits n ≠ [] := by
  rw [natDigits]
  split <;> simp

theorem natDigits_digit (n : Nat) : ∀ c ∈ natDigits n, jsIsDigit c = true := by
  induction n using Nat.strong_induction_on with
  | _ n ih =>
    rw [natDigits]
    split
    · rename_i h
      intro c hc
      simp only [List.mem_singleton] at hc
      subst hc
      interval_cases n <;> decide
    · rename_i h
      intro c hc
      rw [List.mem_append] at hc
      rcases hc with hc | hc
      · exact ih (n / 10) (Nat.div_lt_self (by omega) (by omega)) c hc
      · simp only [List.mem_singleton] at hc
        subst hc
        have hm : n % 10 < 10 := Nat.mod_lt _ (by omega)
        set m := n % 10 with hm2
        interval_cases m <;> decide

theorem charOfNat_digit_toNat (m : Nat) (h : m < 10) :
    (Char.ofNat (48 + m)).toNat = 48 + m := by
  interval_cases m <;> decide

theorem digitsToNat_append_singleton (xs : JsString) (c : Char) :
    digitsToNat (xs ++ [c]) = 10 * digitsToNat xs + (c.toNat - 48) := by
  simp [digitsToNat, List.foldl_append]

theorem digitsToNat_natDigits (n : Nat) : digitsToNat (natDigits n) = n := by
  induction n using Nat.strong_induction_on with
  | _ n ih =>
    rw [natDigits]
    split
    · rename_i h
      have h1 : digitsToNat [Char.ofNat (48 + n)] = (Char.ofNat (48 + n)).toNat - 48 := by
        simp [digitsToNat]
      rw [h1, charOfNat_digit_toNat n h]
      omega
    · rename_i h
      rw [digitsToNat_append_singleton,
        ih (n / 10) (Nat.div_lt_self (by omega) (by omega)),
        charOfNat_digit_toNat (n % 10) (Nat.mod_lt _ (by omega))]
      omega

/-! ## Regex lemmas -/

theorem desksMatchAt_digits (n : Nat) (tail : JsString) :
    desksMatchAt (natDigits n ++ ' ' :: 'd' :: 'e' :: 's' :: 'k' :: tail) = some n := by
  have hds : (natDigits n ++ ' ' :: 'd' :: 'e' :: 's' :: 'k' :: tail).takeWhile jsIsDigit
      = natDigits n := by
    rw [List.takeWhile_append_of_pos (natDigits_digit n)]
    simp [List.takeWhile_cons, jsIsDigit]
  have hdrop : (natDigits n ++ ' ' :: 'd' :: 'e' :: 's' :: 'k' :: tail).drop
      (natDigits n).length = ' ' :: 'd' :: 'e' :: 's' :: 'k' :: tail :=
    List.drop_left _ _
  obtain ⟨c, cs, hcons⟩ := List.exists_cons_of_ne_nil (natDigits_ne_nil n)
  have hempty : (natDigits n).isEmpty = false := by rw [hcons]; rfl
  simp only [desksMatchAt, hds, hdrop, hempty]
  have hws : List.takeWhile jsIsSpace (' ' :: 'd' :: 'e' :: 's' :: 'k' :: tail)
      = [' '] := rfl
  simp only [hws]
  simp [digitsToNat_natDigits]

theorem desksMatch_digits (n : Nat) (tail : JsString) :
    desksMatch (natDigits n ++ ' ' :: 'd' :: 'e' :: 's' :: 'k' :: tail) = some n := by
  obtain ⟨c, cs, hcons⟩ := List.exists_cons_of_ne_nil (natDigits_ne_nil n)
  have hat := desksMatchAt_digits n tail
  rw [hcons, List.cons_append] at hat ⊢
  simp [desksMatch, hat]

theorem cardHit_york (n : Nat) (tail : JsString) :
    cardHit ⟨some yorkRd, some (natDigits n ++ ' ' :: 'd' :: 'e' :: 's' :: 'k' :: tail)⟩
      = some n := by
  have hyork : jsIncludes yorkRd yorkRd = true := by decide
  have hempty : (natDigits n ++ ' ' :: 'd' :: 'e' :: 's' :: 'k' :: tail).isEmpty
      = false := by
    obtain ⟨c, cs, hcons⟩ := List.exists_cons_of_ne_nil (natDigits_ne_nil n)
    rw [hcons, List.cons_append]
    rfl
  simp [cardHit, hyork, hempty, desksMatch_digits]

/-! ## Shared helper lemmas for the claims -/

theorem checkCards_cons_hit (n : Nat) (tail : JsString) (rest : List Card) :
    checkCards (Card.mk (some yorkRd)
      (some (natDigits n ++ ' ' :: 'd' :: 'e' :: 's' :: 'k' :: tail)) :: rest)
      = some n := by
  simp [checkCards, cardHit_york]

theorem checkIfDesksAvailable_inv (ss : Bool) (cards : List Card)
    (h : (checkIfDesksAvailable ss cards).fst.isAvailable = true) :
    ∃ n, (checkIfDesksAvailable ss cards).fst.desksCount = some n ∧ 0 < n := by
  cases hcc : checkCards cards with
  | some n =>
    refine ⟨n, ?_, ?_⟩
    · simp [checkIfDesksAvailable, hcc]
    · simp [checkIfDesksAvailable, hcc] at h
      exact h
  | none => simp [checkIfDesksAvailable, hcc] at h

/-! ## The claims -/

/-- Claim C1: if the availability text scraped from the matching location
card has the form `<n> desk…` (n a decimal natural number), then
`checkIfDesksAvailable` returns `desksCount = n` and `isAvailable = (n > 0)`,
and `checkAvailability` wraps exactly that result, for every n ≥ 0. -/
theorem claim_C1 (n : Nat) (tail : JsString) (rest : List Card) (date : Nat)
    (ss : Bool) :
    ((checkIfDesksAvailable ss (Card.mk (some yorkRd)
        (some (natDigits n ++ ' ' :: 'd' :: 'e' :: 's' :: 'k' :: tail)) :: rest)).fst.desksCount
      = some n ∧
     ((checkIfDesksAvailable ss (Card.mk (some yorkRd)
        (some (natDigits n ++ ' ' :: 'd' :: 'e' :: 's' :: 'k' :: tail)) :: rest)).fst.isAvailable
      = true ↔ 0 < n)) ∧
    (checkAvailability ⟨Except.ok (), Card.mk (some yorkRd)
        (some (natDigits n ++ ' ' :: 'd' :: 'e' :: 's' :: 'k' :: tail)) :: rest, ss⟩
        date).fst
      = Except.ok ⟨date, decide (0 < n), some n⟩ := by
  have hcc := checkCards_cons_hit n tail rest
  refine ⟨⟨?_, ?_⟩, ?_⟩
  · simp [checkIfDesksAvailable, hcc]
  · simp [checkIfDesksAvailable, hcc]
  · simp [checkAvailability, checkIfDesksAvailable, hcc]

/-- Claim C1, evaluated: a card showing `3 desks available` yields
`desksCount = 3`, `isAvailable = true`. -/
theorem claim_C1_witness :
    ((checkIfDesksAvailable true (Card.mk (some yorkRd)
        (some (natDigits 3 ++ ' ' :: 'd' :: 'e' :: 's' :: 'k' :: [])) :: [])).fst.desksCount
      = some 3 ∧
     ((checkIfDesksAvailable true (Card.mk (some yorkRd)
        (some (natDigits 3 ++ ' ' :: 'd' :: 'e' :: 's' :: 'k' :: [])) :: [])).fst.isAvailable
      = true ↔ 0 < 3)) ∧
    (checkAvailability ⟨Except.ok (), Card.mk (some yorkRd)
        (some (natDigits 3 ++ ' ' :: 'd' :: 'e' :: 's' :: 'k' :: [])) :: [], true⟩ 0).fst
      = Except.ok ⟨0, decide (0 < 3), some 3⟩ :=
  claim_C1 3 [] [] 0 true

/-- Claim C2: when no card's (non-null) text contains `10 York Rd`, or the
matching cards have no availability text, or their availability text does not
match the numeric desk pattern, the check returns exactly
`{isAvailable := false, desksCount := none}`. -/
theorem claim_C2 (ss : Bool) (cards : List Card)
    (h : ∀ card ∈ cards,
      card.text = none ∨
      (∃ t, card.text = some t ∧ jsIncludes t yorkRd = false) ∨
      card.availabilityText = none ∨
      (∃ a, card.availabilityText = some a ∧ desksMatch a = none)) :
    (checkIfDesksAvailable ss cards).fst = ⟨false, none⟩ := by
  have hcc : checkCards cards = none := by
    induction cards with
    | nil => rfl
    | cons c cs ih =>
      have hc := h c (by simp)
      have hcs : checkCards cs = none := ih fun card hm => h card (by simp [hm])
      have hhit : cardHit c = none := by
        rcases hc with hc | ⟨t, ht, hinc⟩ | hc | ⟨a, ha, hno⟩
        · simp [cardHit, hc]
        · simp [cardHit, ht, hinc]
        · cases hct : c.text with
          | none => simp [cardHit, hct]
          | some t => simp [cardHit, hct, hc]
        · cases hct : c.text with
          | none => simp [cardHit, hct]
          | some t => simp [cardHit, hct, ha, hno]
      simp [checkCards, hhit, hcs]
  simp [checkIfDesksAvailable, hcc]

/-- Claim C2, evaluated on a page with distractor cards and a matching card
with non-numeric availability text. -/
theorem claim_C2_witness :
    (checkIfDesksAvailable true noHitCards).fst = ⟨false, none⟩ := by
  apply claim_C2
  intro card hm
  simp only [noHitCards, List.mem_cons, List.not_mem_nil, or_false] at hm
  rcases hm with rfl | rfl | rfl | rfl
  · exact Or.inr (Or.inl ⟨_, rfl, by decide⟩)
  · exact Or.inr (Or.inr (Or.inl rfl))
  · exact Or.inl rfl
  · exact Or.inr (Or.inr (Or.inr ⟨_, rfl, by decide⟩))

/-- Claim C3 counterexample: in a run whose login step rejects (everything
else healthy), `main` catches the error in the inner catch, takes the
`error` screenshot, closes the browser and the process exits with status 0 —
not with a non-zero status as claimed, and 0 is thus not reserved for full
success. -/
theorem claim_C3_counterexample :
    envLoginFails.loginResult = Except.error "TimeoutError: login" ∧
    main envLoginFails = ⟨0, true, ["error"], []⟩ :=
  ⟨rfl, rfl⟩

/-- Claim C3 as amended: an exception raised during login, navigation or a
per-date availability check aborts the rest of the automation (in
particular no notification is posted) and captures the `error` diagnostic
screenshot, but the process exits with status 0 (assuming the browser close
in the finally block succeeds); a non-zero exit occurs when configuration
validation, browser launch, or the final close fails. -/
theorem claim_C3_amended (env : MainEnv)
    (hv : validateConfig env.cfg = Except.ok ())
    (hl : env.launch = Except.ok ())
    (hsv : env.setViewport = Except.ok ())
    (hcl : env.closeResult = Except.ok ())
    (hss : env.cfg.enableScreenshots = true)
    (hf : failsBeforeReporting env) :
    main env = ⟨0, true, ["error"], []⟩ := by
  have hib : ∃ e, innerBody env = (some e, []) := by
    rcases hf with ⟨e, he⟩ | ⟨h1, h2, e, he⟩ | ⟨h1, h2, h3, e, he⟩
    · exact ⟨e, by simp [innerBody, hsv, he]⟩
    · exact ⟨e, by simp [innerBody, hsv, h1, h2, he]⟩
    · exact ⟨e, by simp [innerBody, hsv, h1, h2, h3, he]⟩
  obtain ⟨e, he⟩ := hib
  simp [main, hv, hl, he, hcl, takeScreenshot, hss]

/-- Claim C3 (amended), evaluated on the failing-login environment. -/
theorem claim_C3_witness : main envLoginFails = ⟨0, true, ["error"], []⟩ :=
  claim_C3_amended envLoginFails rfl rfl rfl rfl rfl
    (Or.inl ⟨"TimeoutError: login", rfl⟩)

/-- Claim C4: whatever the outbound POST does — any status code, or a thrown
transport error — `sendCombinedSlackNotification` resolves normally; the
exception constructor of its result type is never produced. -/
theorem claim_C4 (cfg : Config) (deps : SlackDeps)
    (results : List AvailabilityResult) :
    ∃ o, sendCombinedSlackNotification cfg deps results = Except.ok o := by
  unfold sendCombinedSlackNotification
  split
  · exact ⟨_, rfl⟩
  split
  · exact ⟨_, rfl⟩
  dsimp only
  split
  · split
    · exact ⟨_, rfl⟩
    · exact ⟨_, rfl⟩
  · exact ⟨_, rfl⟩

/-- Claim C4, evaluated with a POST that throws. -/
theorem claim_C4_witness :
    ∃ o, sendCombinedSlackNotification
      ⟨"a@b.c".toList, "pw".toList, yorkRd, true, true, "https://hooks".toList⟩
      ⟨fun _ => [], fun _ => Except.error "ECONNRESET"⟩
      [⟨0, false, none⟩] = Except.ok o :=
  claim_C4 _ _ _

/-- Claim C5: with the webhook URL unset (empty) or an empty result list,
the notification call posts nothing and just resolves with a log line. -/
theorem claim_C5 (cfg : Config) (deps : SlackDeps)
    (results : List AvailabilityResult)
    (h : cfg.slackWebhookUrl = [] ∨ results = []) :
    ∃ logs, sendCombinedSlackNotification cfg deps results
      = Except.ok ⟨[], logs⟩ := by
  rcases h with h | h
  · refine ⟨["Slack webhook URL not configured, skipping notification"], ?_⟩
    simp [sendCombinedSlackNotification, h]
  · subst h
    by_cases hw : cfg.slackWebhookUrl.isEmpty
    · refine ⟨["Slack webhook URL not configured, skipping notification"], ?_⟩
      simp [sendCombinedSlackNotification, hw]
    · refine ⟨["No availability results to send, skipping notification"], ?_⟩
      simp [sendCombinedSlackNotification, hw]

/-- Claim C5, evaluated with the webhook unset. -/
theorem claim_C5_witness :
    ∃ logs, sendCombinedSlackNotification cfgValid slackDeps0
      [⟨0, true, some 3⟩] = Except.ok ⟨[], logs⟩ :=
  claim_C5 cfgValid slackDeps0 [⟨0, true, some 3⟩] (Or.inl rfl)

/-- Claim C6: when navigation and the earlier login steps succeed but the
submit-control selector matches zero elements, `login` rejects with the
error naming the missing login button, having taken exactly the one
`login-error` diagnostic screenshot before the error propagates. -/
theorem claim_C6 (env : LoginEnv)
    (h1 : env.gotoResult = Except.ok ())
    (h2 : 0 < env.memberBtnCount)
    (h3 : env.memberBtnClick = Except.ok ())
    (h4 : 0 < env.emailCount)
    (h5 : env.emailType = Except.ok ())
    (h6 : 0 < env.passwordCount)
    (h7 : env.passwordType = Except.ok ())
    (h8 : env.submitCount = 0)
    (h9 : env.enableScreenshots = true) :
    login env = (Except.error "Could not find login button", ["login-error"]) := by
  have hb : loginBody env = (Except.error "Could not find login button", []) := by
    simp [loginBody, h1, clickElement, fillInput, h2, h3, h4, h5, h6, h7, h8]
  simp [login, hb, takeScreenshot, h9]

/-- Claim C6, evaluated on the page state with no submit control. -/
theorem claim_C6_witness :
    login loginEnvNoSubmit
      = (Except.error "Could not find login button", ["login-error"]) :=
  claim_C6 loginEnvNoSubmit rfl (by decide) rfl (by decide) rfl (by decide) rfl
    rfl rfl

/-- Claim C7: an empty email, password, or location makes `validateConfig`
throw a configuration error, and the run then exits with status 1 without a
browser session ever being created. -/
theorem claim_C7 (env : MainEnv)
    (h : env.cfg.email = [] ∨ env.cfg.password = [] ∨ env.cfg.location = []) :
    (∃ e, validateConfig env.cfg = Except.error e) ∧
    (main env).exitCode = 1 ∧ (main env).browserLaunched = false := by
  have hv : ∃ e, validateConfig env.cfg = Except.error e := by
    rcases h with h | h | h
    · exact ⟨"WEWORK_EMAIL and WEWORK_PASSWORD must be set in .env file",
        by simp [validateConfig, h]⟩
    · exact ⟨"WEWORK_EMAIL and WEWORK_PASSWORD must be set in .env file",
        by simp [validateConfig, h]⟩
    · by_cases hc : env.cfg.email.isEmpty || env.cfg.password.isEmpty
      · exact ⟨"WEWORK_EMAIL and WEWORK_PASSWORD must be set in .env file",
          by simp [validateConfig, hc]⟩
      · exact ⟨"LOCATION_NAME must be set in .env file",
          by simp [validateConfig, hc, h]⟩
  obtain ⟨e, he⟩ := hv
  exact ⟨⟨e, he⟩, by simp [main, he], by simp [main, he]⟩

/-- Claim C7, evaluated on the empty-password configuration. -/
theorem claim_C7_witness :
    (∃ e, validateConfig envBadConfig.cfg = Except.error e) ∧
    (main envBadConfig).exitCode = 1 ∧
    (main envBadConfig).browserLaunched = false :=
  claim_C7 envBadConfig (Or.inr (Or.inl rfl))

/-- Claim C8: every `AvailabilityResult` produced by `checkAvailability`
(and every record produced by `checkIfDesksAvailable`) satisfies the
invariant: `isAvailable = true` implies `desksCount` is defined and strictly
positive — the shape "available, count unknown" is never produced. -/
theorem claim_C8 (env : BookingEnv) (date : Nat) (r : AvailabilityResult)
    (h1 : (checkAvailability env date).fst = Except.ok r)
    (h2 : r.isAvailable = true) :
    ((checkIfDesksAvailable env.enableScreenshots env.cards).fst.isAvailable = true →
      ∃ n, (checkIfDesksAvailable env.enableScreenshots env.cards).fst.desksCount
        = some n ∧ 0 < n) ∧
    ∃ n, r.desksCount = some n ∧ 0 < n := by
  refine ⟨checkIfDesksAvailable_inv env.enableScreenshots env.cards, ?_⟩
  unfold checkAvailability at h1
  cases hsel : env.selectDateResult with
  | error e => rw [hsel] at h1; simp at h1
  | ok u =>
    rw [hsel] at h1
    rcases hq : checkIfDesksAvailable env.enableScreenshots env.cards with ⟨a, sh⟩
    rw [hq] at h1
    simp at h1
    have hr : r = ⟨date, a.isAvailable, a.desksCount⟩ := h1.symm
    have ha : a.isAvailable = true := by rw [hr] at h2; exact h2
    obtain ⟨n, hn, hpos⟩ := checkIfDesksAvailable_inv env.enableScreenshots env.cards
      (by rw [hq]; exact ha)
    refine ⟨n, ?_, hpos⟩
    rw [hr]
    rw [hq] at hn
    exact hn

/-- Claim C8, evaluated on the three-desk page. -/
theorem claim_C8_witness :
    ((checkIfDesksAvailable bookingEnv3.enableScreenshots bookingEnv3.cards).fst.isAvailable
        = true →
      ∃ n, (checkIfDesksAvailable bookingEnv3.enableScreenshots
        bookingEnv3.cards).fst.desksCount = some n ∧ 0 < n) ∧
    ∃ n, (⟨0, true, some 3⟩ : AvailabilityResult).desksCount = some n ∧ 0 < n :=
  claim_C8 bookingEnv3 0 ⟨0, true, some 3⟩ rfl rfl

/-- Claim C9: for every value of today, `getNextTuesdayAndThursday` returns
exactly two dates: a Tuesday strictly after today and at most seven days
ahead, then a Thursday strictly after today and at most seven days ahead, in
the fixed order Tuesday-then-Thursday; when today is a Wednesday the second
entry (the Thursday, one day ahead) precedes the first chronologically. -/
theorem claim_C9 (today : Nat) :
    ∃ t th, getNextTuesdayAndThursday today = [t, th] ∧
      jsGetDay t = 2 ∧ today < t ∧ t ≤ today + 7 ∧
      jsGetDay th = 4 ∧ today < th ∧ th ≤ today + 7 ∧
      (jsGetDay today = 3 → th = today + 1 ∧ t = today + 6) := by
  refine ⟨_, _, rfl, ?_, ?_, ?_, ?_, ?_, ?_, ?_⟩ <;>
    simp only [getNextTuesdayAndThursday, jsGetDay] <;>
    split_ifs <;> omega

/-- Claim C9, evaluated on a Wednesday (epoch day 6): the Tuesday six days
out is listed before the next-day Thursday. -/
theorem claim_C9_witness :
    ∃ t th, getNextTuesdayAndThursday 6 = [t, th] ∧
      jsGetDay t = 2 ∧ 6 < t ∧ t ≤ 6 + 7 ∧
      jsGetDay th = 4 ∧ 6 < th ∧ th ≤ 6 + 7 ∧
      (jsGetDay 6 = 3 → th = 6 + 1 ∧ t = 6 + 6) :=
  claim_C9 6

/-- Claim C10: `isLoggedIn` is total (its codomain is `Bool`, no exception
escapes the catch-all); when the internal browser query throws, it returns
`false` after the `login-status-error` diagnostic screenshot. -/
theorem claim_C10 (env : LoggedInEnv) (e : JsError)
    (h : env.userMenuQuery = Except.error e) :
    isLoggedIn env
      = (false, takeScreenshot env.enableScreenshots "login-status-error") := by
  simp [isLoggedIn, isLoggedInBody, h]

/-- Claim C10, evaluated on a page whose element query throws. -/
theorem claim_C10_witness :
    isLoggedIn loggedInEnvErr = (false, ["login-status-error"]) := by
  have h := claim_C10 loggedInEnvErr "Execution context was destroyed" rfl
  simpa [takeScreenshot] using h

end WeWork
